import Mathlib

/-!
Verification of the Registration Store core of the mcp-registration-assistant
repository (src/manager.py), against its natural-language specification.

The store state is modelled as the contents of the CSV file: `none` when the
file is absent, `some rows` when it exists, each row being the list of field
strings of one CSV line (the csv module writes and reads back a list of field
strings faithfully, so this row-level view is exact). Clock reads
(datetime.now) become explicit parameters. Python string helpers used by the
code (str.strip, str.lower, the in operator) are embedded as functions on
the character list of a string, for ASCII data.
-/

set_option linter.unusedVariables false

/-- Embedding of Python str.strip on character lists: drop whitespace from
both ends. -/
def stripChars (cs : List Char) : List Char :=
  ((cs.dropWhile Char.isWhitespace).reverse.dropWhile Char.isWhitespace).reverse

/-- Embedding of Python str.strip. -/
def pyStrip (s : String) : String := String.mk (stripChars s.toList)

/-- Embedding of Python str.lower (ASCII). -/
def pyLower (s : String) : String := String.mk (s.toList.map Char.toLower)

/-- Is pat a leading segment of hay. -/
def isPref : List Char → List Char → Bool
  | [], _ => true
  | _ :: _, [] => false
  | p :: ps, h :: hs => p == h && isPref ps hs

/-- Does pat occur contiguously inside hay (Python membership test on
strings). -/
def occursIn (pat : List Char) : List Char → Bool
  | [] => isPref pat []
  | c :: t => isPref pat (c :: t) || occursIn pat t

/-- Embedding of the Python expression pat in s for strings. -/
def strContains (s pat : String) : Bool := occursIn pat.toList s.toList

/-- Split a character list at the first occurrence of sep; none when sep is
absent. -/
def breakAt (sep : Char) : List Char → Option (List Char × List Char)
  | [] => none
  | c :: cs =>
    if c = sep then some ([], cs)
    else
      match breakAt sep cs with
      | none => none
      | some (l, r) => some (c :: l, r)

/-! ## Validator (modelled from the spec)

The repository imports RegistrationValidator from a validator module that is
not among the provided sources; the functions below are modelled from the
specification text of section 4.1. Each check returns a pass flag together
with a human-readable message, as the call sites in src/manager.py expect.
-/

/-- Characters admitted in a display name (policy constant chosen per the
spec: letters, spaces, hyphens and dots). -/
def nameCharOk (c : Char) : Bool := c.isAlpha || c == ' ' || c == '-' || c == '.'

/-- Modelled from the spec: validate_name fails if, after trimming
whitespace, the string is empty, shorter than a minimum length (policy
constant 2), or contains characters disallowed for a display name. -/
def validate_name (name : String) : Bool × String :=
  let t := stripChars name.toList
  if t.isEmpty then (false, "Name cannot be empty")
  else if t.length < 2 then (false, "Name must be at least 2 characters")
  else if !t.all nameCharOk then (false, "Name contains invalid characters")
  else (true, "Valid name")

/-- Characters admitted in the local part of an email address by the
standard pattern. -/
def localCharOk (c : Char) : Bool :=
  c.isAlphanum || c == '.' || c == '_' || c == '%' || c == '+' || c == '-'

/-- Characters admitted in the domain part of an email address by the
standard pattern. -/
def domCharOk (c : Char) : Bool := c.isAlphanum || c == '.' || c == '-'

/-- Modelled from the spec: a standard local-part at domain-with-dot email
pattern, applied to the whole string. -/
def emailOk (e : String) : Bool :=
  match breakAt '@' e.toList with
  | none => false
  | some (l, d) =>
    !l.isEmpty && l.all localCharOk && !d.isEmpty && d.all domCharOk && d.contains '.'

/-- Modelled from the spec: validate_email fails with an invalid-format
message if the string does not match the standard email pattern. -/
def validate_email (email : String) : Bool × String :=
  if emailOk email then (true, "Valid email") else (false, "Invalid email format")

/-- A calendar date, year-month-day. -/
structure DateYMD where
  y : Nat
  m : Nat
  d : Nat
deriving DecidableEq

/-- Gregorian leap-year test. -/
def isLeap (y : Nat) : Bool := (y % 4 == 0 && y % 100 != 0) || y % 400 == 0

/-- Number of days of a month in a given year. -/
def daysInMonth (y m : Nat) : Nat :=
  if m == 2 then (if isLeap y then 29 else 28)
  else if m == 4 || m == 6 || m == 9 || m == 11 then 30
  else 31

/-- Numeric value of a decimal digit character. -/
def digitVal (c : Char) : Nat := c.toNat - 48

/-- Modelled from the spec: parse a string in the fixed YYYY-MM-DD pattern
into a real calendar date; none on any format or calendar violation. -/
def parseDate (s : String) : Option DateYMD :=
  match s.toList with
  | [y1, y2, y3, y4, s1, m1, m2, s2, d1, d2] =>
    if s1 = '-' && s2 = '-' && y1.isDigit && y2.isDigit && y3.isDigit && y4.isDigit
        && m1.isDigit && m2.isDigit && d1.isDigit && d2.isDigit then
      let y := ((digitVal y1 * 10 + digitVal y2) * 10 + digitVal y3) * 10 + digitVal y4
      let m := digitVal m1 * 10 + digitVal m2
      let d := digitVal d1 * 10 + digitVal d2
      if 1 ≤ m && m ≤ 12 && 1 ≤ d && d ≤ daysInMonth y m then some ⟨y, m, d⟩ else none
    else none
  | _ => none

/-- Chronological order on calendar dates. -/
def dateLE (a b : DateYMD) : Bool :=
  a.y < b.y || (a.y == b.y && (a.m < b.m || (a.m == b.m && a.d ≤ b.d)))

/-- Maximum plausible age in years (policy constant chosen per the spec). -/
def maxAgeYears : Nat := 120

/-- Modelled from the spec: validate_date_of_birth fails with an
invalid-format message when the string does not parse as a YYYY-MM-DD
calendar date, and with a range message when the date is in the future or
implies an implausible age; today is the date of the clock at the call. -/
def validate_date_of_birth (today : DateYMD) (dob : String) : Bool × String :=
  match parseDate dob with
  | none => (false, "Invalid date format. Use YYYY-MM-DD")
  | some dt =>
    if !dateLE dt today then (false, "Date of birth cannot be in the future")
    else if maxAgeYears < today.y - dt.y then (false, "Implausible age")
    else (true, "Valid date of birth")

/-! ## Registration Store (translated from src/manager.py) -/

/-- One registration record as produced by csv.DictReader with the fixed
header: the four column values keyed Name, Email, Date_of_Birth,
Registration_Date. -/
structure Record where
  Name : String
  Email : String
  Date_of_Birth : String
  Registration_Date : String
deriving DecidableEq

/-- REQUIRED_FIELDS, the fixed CSV header row (src/manager.py line 6). -/
def header : List String := ["Name", "Email", "Date_of_Birth", "Registration_Date"]

/-- Contents of the record file: none when absent, otherwise the list of CSV
rows, each a list of field strings. -/
abbrev FileState := Option (List (List String))

/-- ensure_csv_exists (src/manager.py lines 13-16): create the file with the
header row when it does not exist; leave an existing file untouched. -/
def ensure_csv_exists : FileState → FileState
  | none => some [header]
  | some rows => some rows

/-- Read one CSV data row into a Record. The header written by the store is
exactly REQUIRED_FIELDS, so DictReader keyed by that header reads the four
columns positionally in this order. -/
def rowToRecord (r : List String) : Record :=
  ⟨r.getD 0 "", r.getD 1 "", r.getD 2 "", r.getD 3 ""⟩

/-- csv.DictReader over the file rows: the first row is consumed as the
header, each later row becomes one record. -/
def csvDictRead : List (List String) → List Record
  | [] => []
  | _hdr :: dataRows => dataRows.map rowToRecord

/-- Result of get_all_registrations: the success flag and the record list
(the count field of the Python dict is the length of the data and is kept
implicit here). -/
structure ListResult where
  success : Bool
  data : List Record
deriving DecidableEq

/-- get_all_registrations (src/manager.py lines 37-41): an absent file
yields success with no records; otherwise the file is read through
csv.DictReader. -/
def get_all_registrations : FileState → ListResult
  | none => ⟨true, []⟩
  | some rows => ⟨true, csvDictRead rows⟩

/-- get_all_registrations together with the file state after the call: the
file is opened in read mode, so its contents are returned unchanged. -/
def get_all_run (fs : FileState) : ListResult × FileState :=
  (get_all_registrations fs, fs)

/-- email_exists (src/manager.py lines 49-51): some stored record has the
same lowercased email; the probe email is lowercased but not trimmed. -/
def email_exists (fs : FileState) (email : String) : Bool :=
  (get_all_registrations fs).data.any (fun r => pyLower r.Email == pyLower email)

/-- Result of search_registrations: success flag, match count, matches. -/
structure SearchResult where
  success : Bool
  count : Nat
  data : List Record
deriving DecidableEq

/-- search_registrations (src/manager.py lines 43-47): the query is
lowercased then stripped, and a record matches when that string occurs in
its lowercased name or lowercased email; matches keep file order. -/
def search_registrations (fs : FileState) (query : String) : SearchResult :=
  let q := pyStrip (pyLower query)
  let results := (get_all_registrations fs).data.filter
    (fun r => strContains (pyLower r.Name) q || strContains (pyLower r.Email) q)
  ⟨true, results.length, results⟩

/-- Result of add_registration, mirroring the three result dictionaries of
src/manager.py lines 24, 28 and 34. -/
inductive AddResult where
  | validationFailed (error : String) (details : List String)
  | duplicateEmail (error : String)
  | success (message : String) (data : Record)
deriving DecidableEq

/-- Append one row to the file; open in append mode creates an absent
file. -/
def appendRow : FileState → List String → FileState
  | none, row => some [row]
  | some rows, row => some (rows ++ [row])

/-- add_registration (src/manager.py lines 18-35). The two clock reads are
explicit: today is the current date seen by the date-of-birth validator and
now is the formatted current timestamp. All three validators run, and their
three messages are reported together on any failure; then the duplicate
check runs; then the row is appended with name and email stripped, while
the returned data echoes the unstripped caller values. -/
def add_registration (today : DateYMD) (now : String)
    (name email dob : String) (fs : FileState) : AddResult × FileState :=
  let n := validate_name name
  let e := validate_email email
  let d := validate_date_of_birth today dob
  if !(n.1 && e.1 && d.1) then
    (.validationFailed "Validation failed" [n.2, e.2, d.2], fs)
  else if email_exists fs email then
    (.duplicateEmail "Email already registered", fs)
  else
    (.success (s!"Registered {name}") ⟨name, email, dob, now⟩,
     appendRow fs [pyStrip name, pyStrip email, dob, now])

/-- One store operation, for reasoning about operation sequences. -/
inductive Op where
  | add (today : DateYMD) (now name email dob : String)
  | listAll
  | search (q : String)

/-- Effect of one operation on the file contents. -/
def applyOp (fs : FileState) : Op → FileState
  | .add t now n e d => (add_registration t now n e d fs).2
  | .listAll => (get_all_run fs).2
  | .search _ => fs

/-- Effect of a sequence of operations on the file contents. -/
def runOps (fs : FileState) (ops : List Op) : FileState := ops.foldl applyOp fs

/-! ## Concrete fixtures used by witnesses and counterexamples -/

/-- A concrete current date for the clock parameter. -/
def today0 : DateYMD := ⟨2026, 10, 12⟩

/-- A freshly constructed store: the file created with just the header. -/
def freshStore : FileState := ensure_csv_exists none

/-- A store holding one record for john at example.com. -/
def johnStore : FileState :=
  appendRow freshStore ["John Doe", "john@example.com", "1990-01-15", "2026-01-01 00:00:00"]

/-- The record stored in johnStore, as read back by list. -/
def johnExampleRec : Record :=
  ⟨"John Doe", "john@example.com", "1990-01-15", "2026-01-01 00:00:00"⟩

/-- The John Doe record of the search example of the spec. -/
def johnRec : Record := ⟨"John Doe", "john@x.com", "1990-01-15", "2026-01-01 00:00:00"⟩

/-- The Jane Roe record of the search example of the spec. -/
def janeRec : Record := ⟨"Jane Roe", "jane@x.com", "1991-02-16", "2026-01-02 00:00:00"⟩

/-- A store holding the John Doe and Jane Roe records of the spec example. -/
def doeStore : FileState :=
  appendRow (appendRow freshStore
    ["John Doe", "john@x.com", "1990-01-15", "2026-01-01 00:00:00"])
    ["Jane Roe", "jane@x.com", "1991-02-16", "2026-01-02 00:00:00"]

/-! ## Helper lemmas -/

theorem add_validationFailed_of (t : DateYMD) (now n e d : String) (fs : FileState)
    (hv : ((validate_name n).1 && (validate_email e).1 && (validate_date_of_birth t d).1) = false) :
    add_registration t now n e d fs =
      (.validationFailed "Validation failed"
        [(validate_name n).2, (validate_email e).2, (validate_date_of_birth t d).2], fs) := by
  simp [add_registration, hv]

theorem add_duplicate_of (t : DateYMD) (now n e d : String) (fs : FileState)
    (hn : (validate_name n).1 = true) (he : (validate_email e).1 = true)
    (hd : (validate_date_of_birth t d).1 = true) (hdup : email_exists fs e = true) :
    add_registration t now n e d fs = (.duplicateEmail "Email already registered", fs) := by
  simp [add_registration, hn, he, hd, hdup]

theorem add_success_of (t : DateYMD) (now n e d : String) (fs : FileState)
    (hn : (validate_name n).1 = true) (he : (validate_email e).1 = true)
    (hd : (validate_date_of_birth t d).1 = true) (hdup : email_exists fs e = false) :
    add_registration t now n e d fs =
      (.success (s!"Registered {n}") ⟨n, e, d, now⟩,
       appendRow fs [pyStrip n, pyStrip e, d, now]) := by
  simp [add_registration, hn, he, hd, hdup]

theorem breakAt_eq_append {sep : Char} : ∀ {cs l r : List Char},
    breakAt sep cs = some (l, r) → cs = l ++ sep :: r := by
  intro cs
  induction cs with
  | nil => intro l r h; simp [breakAt] at h
  | cons c t ih =>
    intro l r h
    by_cases hc : c = sep
    · subst hc
      simp [breakAt] at h
      obtain ⟨hl, hr⟩ := h
      subst hl; subst hr; rfl
    · simp [breakAt, hc] at h
      cases ht : breakAt sep t with
      | none => rw [ht] at h; simp at h
      | some p =>
        rw [ht] at h
        cases p with
        | mk l2 r2 =>
          simp at h
          obtain ⟨hl, hr⟩ := h
          subst hl; subst hr
          simpa using ih ht

theorem localCharOk_of_ws {c : Char} (h : c.isWhitespace = true) : localCharOk c = false := by
  simp only [Char.isWhitespace, Bool.or_eq_true, decide_eq_true_eq] at h
  rcases h with ((rfl | rfl) | rfl) | rfl <;> decide

theorem domCharOk_of_ws {c : Char} (h : c.isWhitespace = true) : domCharOk c = false := by
  simp only [Char.isWhitespace, Bool.or_eq_true, decide_eq_true_eq] at h
  rcases h with ((rfl | rfl) | rfl) | rfl <;> decide

theorem dropWhile_eq_self_of_all {α : Type} {p : α → Bool} :
    ∀ {cs : List α}, (∀ c ∈ cs, p c = false) → cs.dropWhile p = cs := by
  intro cs h
  cases cs with
  | nil => rfl
  | cons c t =>
    have hc : p c = false := h c (List.mem_cons_self c t)
    simp [List.dropWhile_cons, hc]

theorem stripChars_eq_self {cs : List Char}
    (h : ∀ c ∈ cs, c.isWhitespace = false) : stripChars cs = cs := by
  unfold stripChars
  rw [dropWhile_eq_self_of_all h]
  rw [dropWhile_eq_self_of_all (fun c hc => h c (List.mem_reverse.mp hc))]
  exact List.reverse_reverse cs

theorem emailOk_chars_not_ws {e : String} (he : emailOk e = true) :
    ∀ c ∈ e.toList, c.isWhitespace = false := by
  unfold emailOk at he
  cases hb : breakAt '@' e.toList with
  | none => rw [hb] at he; simp at he
  | some p =>
    rw [hb] at he
    cases p with
    | mk l d =>
      simp only [Bool.and_eq_true] at he
      obtain ⟨⟨⟨⟨hl, hlok⟩, hd⟩, hdok⟩, hdot⟩ := he
      have hdec := breakAt_eq_append hb
      intro c hc
      rw [hdec] at hc
      rcases List.mem_append.mp hc with hcl | hcr
      · have : localCharOk c = true := by
          rw [List.all_eq_true] at hlok
          exact hlok c hcl
        by_contra hws
        rw [Bool.not_eq_false] at hws
        rw [localCharOk_of_ws hws] at this
        exact Bool.false_ne_true this
      · rcases List.mem_cons.mp hcr with rfl | hcd
        · decide
        · have : domCharOk c = true := by
            rw [List.all_eq_true] at hdok
            exact hdok c hcd
          by_contra hws
          rw [Bool.not_eq_false] at hws
          rw [domCharOk_of_ws hws] at this
          exact Bool.false_ne_true this

theorem string_mk_toList (s : String) : String.mk s.toList = s := by
  cases s
  rfl

theorem emailOk_pyStrip {e : String} (he : emailOk e = true) : pyStrip e = e := by
  unfold pyStrip
  rw [stripChars_eq_self (emailOk_chars_not_ws he)]
  exact string_mk_toList e

theorem emailOk_false_of_strip_ne {e : String} (h : pyStrip e ≠ e) : emailOk e = false := by
  by_contra hok
  rw [Bool.not_eq_false] at hok
  exact h (emailOk_pyStrip hok)

theorem validate_email_iff {e : String} : (validate_email e).1 = true ↔ emailOk e = true := by
  unfold validate_email
  by_cases h : emailOk e <;> simp [h]

theorem validate_name_strip_ne {n : String} (hn : (validate_name n).1 = true) :
    pyStrip n ≠ "" := by
  intro h
  have hl : stripChars n.data = [] := congrArg String.data h
  simp [validate_name, String.toList, hl] at hn

theorem validate_email_ne_empty {e : String} (he : (validate_email e).1 = true) : e ≠ "" := by
  intro h
  subst h
  have : emailOk "" = false := rfl
  rw [validate_email_iff] at he
  rw [this] at he
  exact Bool.false_ne_true he

theorem validate_dob_ne_empty {t : DateYMD} {dob : String}
    (hd : (validate_date_of_birth t dob).1 = true) : dob ≠ "" := by
  intro h
  subst h
  have hp : parseDate "" = none := rfl
  simp [validate_date_of_birth, hp] at hd

theorem length_dropWhile_le' {α : Type} (p : α → Bool) :
    ∀ cs : List α, (cs.dropWhile p).length ≤ cs.length := by
  intro cs
  induction cs with
  | nil => simp
  | cons c t ih =>
    rw [List.dropWhile_cons]
    by_cases h : p c
    · simp only [h, if_true]
      exact Nat.le_succ_of_le ih
    · simp [h]

theorem length_dropWhile_lt_of_ne {α : Type} {p : α → Bool} :
    ∀ {cs : List α}, cs.dropWhile p ≠ cs → (cs.dropWhile p).length < cs.length := by
  intro cs h
  cases cs with
  | nil => simp at h
  | cons c t =>
    rw [List.dropWhile_cons] at h ⊢
    by_cases hc : p c
    · simp only [hc, if_true]
      exact Nat.lt_succ_of_le (length_dropWhile_le' p t)
    · simp [hc] at h

theorem length_stripChars_lt {cs : List Char} (h : stripChars cs ≠ cs) :
    (stripChars cs).length < cs.length := by
  unfold stripChars at h ⊢
  by_cases hA : cs.dropWhile Char.isWhitespace = cs
  · rw [hA] at h ⊢
    have hB : cs.reverse.dropWhile Char.isWhitespace ≠ cs.reverse := by
      intro hB
      rw [hB, List.reverse_reverse] at h
      exact h rfl
    calc (cs.reverse.dropWhile Char.isWhitespace).reverse.length
        = (cs.reverse.dropWhile Char.isWhitespace).length := List.length_reverse _
      _ < cs.reverse.length := length_dropWhile_lt_of_ne hB
      _ = cs.length := List.length_reverse cs
  · have h1 : ((cs.dropWhile Char.isWhitespace).reverse.dropWhile Char.isWhitespace).reverse.length
        ≤ (cs.dropWhile Char.isWhitespace).length := by
      rw [List.length_reverse]
      calc ((cs.dropWhile Char.isWhitespace).reverse.dropWhile Char.isWhitespace).length
          ≤ (cs.dropWhile Char.isWhitespace).reverse.length :=
            length_dropWhile_le' _ _
        _ = (cs.dropWhile Char.isWhitespace).length := List.length_reverse _
    exact Nat.lt_of_le_of_lt h1 (length_dropWhile_lt_of_ne hA)

theorem pyStrip_toList (s : String) : (pyStrip s).toList = stripChars s.toList := rfl

theorem pyLower_length (s : String) : (pyLower s).toList.length = s.toList.length := by
  simp [pyLower]

theorem pyLower_ne_of_shorter {a b : String}
    (h : a.toList.length < b.toList.length) : pyLower a ≠ pyLower b := by
  intro hab
  have := congrArg (fun s => s.toList.length) hab
  simp only [pyLower_length] at this
  omega

theorem add_snd_cases (t : DateYMD) (now n e d : String) (fs : FileState) :
    (add_registration t now n e d fs).2 = fs ∨
    (add_registration t now n e d fs).2 = appendRow fs [pyStrip n, pyStrip e, d, now] := by
  by_cases hv : ((validate_name n).1 && (validate_email e).1 && (validate_date_of_birth t d).1) = true
  · rw [Bool.and_eq_true, Bool.and_eq_true] at hv
    obtain ⟨⟨hn, he⟩, hd⟩ := hv
    by_cases hdup : email_exists fs e = true
    · left
      rw [add_duplicate_of t now n e d fs hn he hd hdup]
    · right
      have hdup2 : email_exists fs e = false := by simpa using hdup
      rw [add_success_of t now n e d fs hn he hd hdup2]
  · left
    have hv2 : ((validate_name n).1 && (validate_email e).1
        && (validate_date_of_birth t d).1) = false := by simpa using hv
    rw [add_validationFailed_of t now n e d fs hv2]

theorem applyOp_header {dr : List (List String)} (op : Op) :
    ∃ dr2, applyOp (some (header :: dr)) op = some (header :: dr2) := by
  cases op with
  | add t now n e d =>
    rcases add_snd_cases t now n e d (some (header :: dr)) with h | h
    · exact ⟨dr, h⟩
    · exact ⟨dr ++ [[pyStrip n, pyStrip e, d, now]], h⟩
  | listAll => exact ⟨dr, rfl⟩
  | search q => exact ⟨dr, rfl⟩

theorem runOps_header : ∀ (ops : List Op) (dr : List (List String)),
    ∃ dr2, runOps (some (header :: dr)) ops = some (header :: dr2) := by
  intro ops
  induction ops with
  | nil => intro dr; exact ⟨dr, rfl⟩
  | cons op ops ih =>
    intro dr
    obtain ⟨dr1, h1⟩ := applyOp_header op
    obtain ⟨dr2, h2⟩ := ih dr1
    refine ⟨dr2, ?_⟩
    show runOps (applyOp (some (header :: dr)) op) ops = _
    rw [h1]
    exact h2

theorem get_all_append_data (r0 row : List String) (rows : List (List String)) :
    (get_all_registrations (appendRow (some (r0 :: rows)) row)).data
      = (get_all_registrations (some (r0 :: rows))).data ++ [rowToRecord row] := by
  simp [get_all_registrations, appendRow, csvDictRead]

theorem email_exists_iff (fs : FileState) (e : String) :
    email_exists fs e = true ↔
      ∃ r ∈ (get_all_registrations fs).data, pyLower r.Email = pyLower e := by
  simp [email_exists, List.any_eq_true, beq_iff_eq]

theorem validate_email_false_of_strip_ne {e : String} (h : pyStrip e ≠ e) :
    (validate_email e).1 = false := by
  have hemail : emailOk e = false := emailOk_false_of_strip_ne h
  simp [validate_email, hemail]

/-! ## Claims -/

/-- C1: whenever at least one of the three validations fails, add returns a
ValidationFailed result whose details carry the message of every validator,
in particular the failure reason of each failing one (all three are
evaluated, with no short-circuit), and the file contents are unchanged. -/
theorem add_reports_all_validation_failures (t : DateYMD) (now name email dob : String)
    (fs : FileState)
    (hv : ((validate_name name).1 && (validate_email email).1
      && (validate_date_of_birth t dob).1) = false) :
    add_registration t now name email dob fs =
      (.validationFailed "Validation failed"
        [(validate_name name).2, (validate_email email).2, (validate_date_of_birth t dob).2], fs)
    ∧ ((validate_name name).1 = false → (validate_name name).2 ∈
        [(validate_name name).2, (validate_email email).2, (validate_date_of_birth t dob).2])
    ∧ ((validate_email email).1 = false → (validate_email email).2 ∈
        [(validate_name name).2, (validate_email email).2, (validate_date_of_birth t dob).2])
    ∧ ((validate_date_of_birth t dob).1 = false → (validate_date_of_birth t dob).2 ∈
        [(validate_name name).2, (validate_email email).2, (validate_date_of_birth t dob).2]) := by
  refine ⟨add_validationFailed_of t now name email dob fs hv,
    fun _ => ?_, fun _ => ?_, fun _ => ?_⟩ <;> simp

/-- Witness for C1 at a concrete input on which all three validators fail. -/
theorem add_reports_all_validation_failures_witness :
    ((validate_name "J").1 && (validate_email "bad").1
      && (validate_date_of_birth today0 "1990/01/15").1) = false
    ∧ (add_registration today0 "2026-10-12 10:00:00" "J" "bad" "1990/01/15" freshStore =
        (.validationFailed "Validation failed"
          [(validate_name "J").2, (validate_email "bad").2,
            (validate_date_of_birth today0 "1990/01/15").2], freshStore)
      ∧ ((validate_name "J").1 = false → (validate_name "J").2 ∈
          [(validate_name "J").2, (validate_email "bad").2,
            (validate_date_of_birth today0 "1990/01/15").2])
      ∧ ((validate_email "bad").1 = false → (validate_email "bad").2 ∈
          [(validate_name "J").2, (validate_email "bad").2,
            (validate_date_of_birth today0 "1990/01/15").2])
      ∧ ((validate_date_of_birth today0 "1990/01/15").1 = false →
          (validate_date_of_birth today0 "1990/01/15").2 ∈
          [(validate_name "J").2, (validate_email "bad").2,
            (validate_date_of_birth today0 "1990/01/15").2])) :=
  ⟨by decide, add_reports_all_validation_failures today0 "2026-10-12 10:00:00" "J" "bad"
    "1990/01/15" freshStore (by decide)⟩

/-- C2: when every validation passes but some stored record carries the same
email up to letter case, add returns DuplicateEmail and leaves the file
unchanged, whatever the case of the supplied email. -/
theorem add_duplicate_email_rejected (t : DateYMD) (now name email dob : String)
    (fs : FileState) (r : Record)
    (hn : (validate_name name).1 = true) (he : (validate_email email).1 = true)
    (hd : (validate_date_of_birth t dob).1 = true)
    (hr : r ∈ (get_all_registrations fs).data)
    (hmatch : pyLower r.Email = pyLower email) :
    add_registration t now name email dob fs =
      (.duplicateEmail "Email already registered", fs) := by
  have hdup : email_exists fs email = true := (email_exists_iff fs email).mpr ⟨r, hr, hmatch⟩
  exact add_duplicate_of t now name email dob fs hn he hd hdup

/-- Witness for C2: the spec example, an existing john at example.com record
and an upper-case probe of the same address. -/
theorem add_duplicate_email_rejected_witness :
    (validate_name "Jane").1 = true ∧ (validate_email "JOHN@EXAMPLE.COM").1 = true
    ∧ (validate_date_of_birth today0 "1990-01-15").1 = true
    ∧ johnExampleRec ∈ (get_all_registrations johnStore).data
    ∧ pyLower johnExampleRec.Email = pyLower "JOHN@EXAMPLE.COM"
    ∧ add_registration today0 "2026-10-12 10:00:00" "Jane" "JOHN@EXAMPLE.COM" "1990-01-15"
        johnStore = (.duplicateEmail "Email already registered", johnStore) :=
  ⟨by decide, by decide, by decide, by decide, by decide,
    add_duplicate_email_rejected today0 "2026-10-12 10:00:00" "Jane" "JOHN@EXAMPLE.COM"
      "1990-01-15" johnStore johnExampleRec (by decide) (by decide) (by decide)
      (by decide) (by decide)⟩

/-- C5: when the input both fails validation and duplicates a stored email,
the result is ValidationFailed, not DuplicateEmail: malformed input is
reported before conflicts. -/
theorem validation_checked_before_duplicate (t : DateYMD) (now name email dob : String)
    (fs : FileState)
    (hv : ((validate_name name).1 && (validate_email email).1
      && (validate_date_of_birth t dob).1) = false)
    (hdup : email_exists fs email = true) :
    (add_registration t now name email dob fs).1 =
      .validationFailed "Validation failed"
        [(validate_name name).2, (validate_email email).2, (validate_date_of_birth t dob).2] := by
  rw [add_validationFailed_of t now name email dob fs hv]

/-- Witness for C5: a too-short name together with a duplicate email. -/
theorem validation_checked_before_duplicate_witness :
    ((validate_name "J").1 && (validate_email "JOHN@EXAMPLE.COM").1
      && (validate_date_of_birth today0 "1990-01-15").1) = false
    ∧ email_exists johnStore "JOHN@EXAMPLE.COM" = true
    ∧ (add_registration today0 "2026-10-12 10:00:00" "J" "JOHN@EXAMPLE.COM" "1990-01-15"
        johnStore).1 =
      .validationFailed "Validation failed"
        [(validate_name "J").2, (validate_email "JOHN@EXAMPLE.COM").2,
          (validate_date_of_birth today0 "1990-01-15").2] :=
  ⟨by decide, by decide,
    validation_checked_before_duplicate today0 "2026-10-12 10:00:00" "J" "JOHN@EXAMPLE.COM"
      "1990-01-15" johnStore (by decide) (by decide)⟩

/-- C7: listing an empty store, whether the file is absent or freshly
created with only the header, yields a successful result with no records. -/
theorem list_empty_store_ok :
    get_all_registrations none = ⟨true, []⟩
    ∧ get_all_registrations (ensure_csv_exists none) = ⟨true, []⟩ :=
  ⟨rfl, rfl⟩

/-- C9: get_all_registrations opens the file read-only, so it leaves the
contents unchanged, and running it twice with no intervening add returns
identical ordered output. -/
theorem list_readonly_idempotent :
    ∀ fs : FileState,
      (get_all_run fs).2 = fs
      ∧ (get_all_run ((get_all_run fs).2)).1 = (get_all_run fs).1
      ∧ applyOp fs Op.listAll = fs :=
  fun fs => ⟨rfl, rfl, rfl⟩

/-- Counterexample to C3 as stated: a name with a leading space passes
validation; the stored and listed record holds the trimmed name while the
Success result echoes the untrimmed caller value, so the round-trip is not
byte-for-byte and the echoed record differs from the stored one. -/
theorem roundtrip_not_byte_exact_cex :
    (add_registration today0 "2026-10-12 09:00:00" " John" "john@x.com" "1990-01-15"
      freshStore).1
      = AddResult.success "Registered  John"
          ⟨" John", "john@x.com", "1990-01-15", "2026-10-12 09:00:00"⟩
    ∧ (get_all_registrations
        (add_registration today0 "2026-10-12 09:00:00" " John" "john@x.com" "1990-01-15"
          freshStore).2).data
      = [⟨"John", "john@x.com", "1990-01-15", "2026-10-12 09:00:00"⟩]
    ∧ (" John" : String) ≠ "John" := by
  refine ⟨by decide, by decide, by decide⟩

/-- C3 (amended): a record written by a successful add and then retrieved
via list reproduces dob byte-for-byte and name and email trimmed of
surrounding whitespace, with the server-assigned timestamp; the Success
result echoes the caller-supplied fields together with that timestamp, and
it coincides with the stored record exactly when the name carries no
surrounding whitespace (a valid email never does). -/
theorem roundtrip_trimmed (t : DateYMD) (now name email dob : String)
    (r0 : List String) (rows : List (List String))
    (hn : (validate_name name).1 = true) (he : (validate_email email).1 = true)
    (hd : (validate_date_of_birth t dob).1 = true)
    (hdup : email_exists (some (r0 :: rows)) email = false) :
    (add_registration t now name email dob (some (r0 :: rows))).1 =
      .success (s!"Registered {name}") ⟨name, email, dob, now⟩
    ∧ (get_all_registrations
        (add_registration t now name email dob (some (r0 :: rows))).2).data
      = (get_all_registrations (some (r0 :: rows))).data
          ++ [⟨pyStrip name, pyStrip email, dob, now⟩]
    ∧ pyStrip email = email
    ∧ (pyStrip name = name →
        (⟨pyStrip name, pyStrip email, dob, now⟩ : Record) = ⟨name, email, dob, now⟩) := by
  have hadd := add_success_of t now name email dob (some (r0 :: rows)) hn he hd hdup
  have hse : pyStrip email = email := emailOk_pyStrip (validate_email_iff.mp he)
  refine ⟨by rw [hadd], ?_, hse, ?_⟩
  · rw [hadd]
    show (get_all_registrations
        (appendRow (some (r0 :: rows)) [pyStrip name, pyStrip email, dob, now])).data = _
    rw [get_all_append_data]
    rfl
  · intro hsn
    rw [hsn, hse]

/-- Witness for C3 (amended) on a concrete valid registration. -/
theorem roundtrip_trimmed_witness :
    (validate_name "Jane Roe").1 = true ∧ (validate_email "jane@x.com").1 = true
    ∧ (validate_date_of_birth today0 "1991-02-16").1 = true
    ∧ email_exists (some (header :: [["John Doe", "john@example.com", "1990-01-15",
        "2026-01-01 00:00:00"]])) "jane@x.com" = false
    ∧ ((add_registration today0 "2026-10-12 10:00:00" "Jane Roe" "jane@x.com" "1991-02-16"
        (some (header :: [["John Doe", "john@example.com", "1990-01-15",
          "2026-01-01 00:00:00"]]))).1 =
      .success "Registered Jane Roe" ⟨"Jane Roe", "jane@x.com", "1991-02-16",
        "2026-10-12 10:00:00"⟩
      ∧ (get_all_registrations
          (add_registration today0 "2026-10-12 10:00:00" "Jane Roe" "jane@x.com" "1991-02-16"
            (some (header :: [["John Doe", "john@example.com", "1990-01-15",
              "2026-01-01 00:00:00"]]))).2).data
        = (get_all_registrations (some (header :: [["John Doe", "john@example.com",
            "1990-01-15", "2026-01-01 00:00:00"]]))).data
            ++ [⟨pyStrip "Jane Roe", pyStrip "jane@x.com", "1991-02-16",
              "2026-10-12 10:00:00"⟩]
      ∧ pyStrip "jane@x.com" = "jane@x.com"
      ∧ (pyStrip "Jane Roe" = "Jane Roe" →
          (⟨pyStrip "Jane Roe", pyStrip "jane@x.com", "1991-02-16",
            "2026-10-12 10:00:00"⟩ : Record)
            = ⟨"Jane Roe", "jane@x.com", "1991-02-16", "2026-10-12 10:00:00"⟩)) :=
  ⟨by decide, by decide, by decide, by decide,
    roundtrip_trimmed today0 "2026-10-12 10:00:00" "Jane Roe" "jane@x.com" "1991-02-16"
      header [["John Doe", "john@example.com", "1990-01-15", "2026-01-01 00:00:00"]]
      (by decide) (by decide) (by decide) (by decide)⟩

/-- C4: for a valid triple whose email does not occur case-insensitively in
a constructed store, add succeeds and the file becomes the old rows with
exactly one new row appended, so list afterwards is the old list with one
new record at the end, its four fields populated and its timestamp the
clock value of the call. -/
theorem add_appends_exactly_one (t : DateYMD) (now name email dob : String)
    (r0 : List String) (rows : List (List String))
    (hn : (validate_name name).1 = true) (he : (validate_email email).1 = true)
    (hd : (validate_date_of_birth t dob).1 = true)
    (hfresh : ∀ r ∈ (get_all_registrations (some (r0 :: rows))).data,
      pyLower r.Email ≠ pyLower email) :
    add_registration t now name email dob (some (r0 :: rows)) =
      (.success (s!"Registered {name}") ⟨name, email, dob, now⟩,
       some ((r0 :: rows) ++ [[pyStrip name, pyStrip email, dob, now]]))
    ∧ (get_all_registrations
        (add_registration t now name email dob (some (r0 :: rows))).2).data
      = (get_all_registrations (some (r0 :: rows))).data
          ++ [⟨pyStrip name, pyStrip email, dob, now⟩]
    ∧ pyStrip name ≠ "" ∧ pyStrip email ≠ "" ∧ dob ≠ "" := by
  have hdup : email_exists (some (r0 :: rows)) email = false := by
    rw [← Bool.not_eq_true, email_exists_iff]
    rintro ⟨r, hr, hEq⟩
    exact hfresh r hr hEq
  have hadd := add_success_of t now name email dob (some (r0 :: rows)) hn he hd hdup
  refine ⟨hadd, ?_, validate_name_strip_ne hn, ?_, validate_dob_ne_empty hd⟩
  · rw [hadd]
    show (get_all_registrations
        (appendRow (some (r0 :: rows)) [pyStrip name, pyStrip email, dob, now])).data = _
    rw [get_all_append_data]
    rfl
  · rw [emailOk_pyStrip (validate_email_iff.mp he)]
    exact validate_email_ne_empty he

/-- Witness for C4: adding a fresh alice record to the john store. -/
theorem add_appends_exactly_one_witness :
    (validate_name "Alice").1 = true ∧ (validate_email "alice@x.com").1 = true
    ∧ (validate_date_of_birth today0 "1995-05-05").1 = true
    ∧ (∀ r ∈ (get_all_registrations (some (header :: [["John Doe", "john@example.com",
        "1990-01-15", "2026-01-01 00:00:00"]]))).data,
        pyLower r.Email ≠ pyLower "alice@x.com")
    ∧ (add_registration today0 "2026-10-12 11:00:00" "Alice" "alice@x.com" "1995-05-05"
        (some (header :: [["John Doe", "john@example.com", "1990-01-15",
          "2026-01-01 00:00:00"]])) =
      (.success "Registered Alice" ⟨"Alice", "alice@x.com", "1995-05-05",
          "2026-10-12 11:00:00"⟩,
       some ((header :: [["John Doe", "john@example.com", "1990-01-15",
          "2026-01-01 00:00:00"]])
         ++ [[pyStrip "Alice", pyStrip "alice@x.com", "1995-05-05", "2026-10-12 11:00:00"]]))
      ∧ (get_all_registrations
          (add_registration today0 "2026-10-12 11:00:00" "Alice" "alice@x.com" "1995-05-05"
            (some (header :: [["John Doe", "john@example.com", "1990-01-15",
              "2026-01-01 00:00:00"]]))).2).data
        = (get_all_registrations (some (header :: [["John Doe", "john@example.com",
            "1990-01-15", "2026-01-01 00:00:00"]]))).data
            ++ [⟨pyStrip "Alice", pyStrip "alice@x.com", "1995-05-05", "2026-10-12 11:00:00"⟩]
      ∧ pyStrip "Alice" ≠ "" ∧ pyStrip "alice@x.com" ≠ "" ∧ ("1995-05-05" : String) ≠ "") :=
  ⟨by decide, by decide, by decide, by decide,
    add_appends_exactly_one today0 "2026-10-12 11:00:00" "Alice" "alice@x.com" "1995-05-05"
      header [["John Doe", "john@example.com", "1990-01-15", "2026-01-01 00:00:00"]]
      (by decide) (by decide) (by decide) (by decide)⟩

/-- The record-match predicate of the amended C6: the query, lowercased and
then stripped of surrounding whitespace as the code does, occurs in the
lowercased name or the lowercased email. -/
def specMatches (q : String) (r : Record) : Bool :=
  strContains (pyLower r.Name) (pyStrip (pyLower q))
    || strContains (pyLower r.Email) (pyStrip (pyLower q))

/-- Counterexample to C6 as stated: on the John Doe and Jane Roe store, the
query with a trailing space is returned as matching the John Doe record,
although that query is not a case-insensitive substring of its name or
email; the code strips the query first. -/
theorem search_query_not_trimmed_cex :
    search_registrations doeStore "doe " = ⟨true, 1, [johnRec]⟩
    ∧ strContains (pyLower johnRec.Name) (pyLower "doe ") = false
    ∧ strContains (pyLower johnRec.Email) (pyLower "doe ") = false := by
  refine ⟨by decide, by decide, by decide⟩

/-- C6 (amended): search returns exactly the records whose lowercased name
or email contains the lowercased-then-stripped query, in original file
order, with count equal to the number of matches; in particular the doe
query on the John Doe and Jane Roe store returns only the first record with
count one. -/
theorem search_matches_trimmed_query :
    (∀ (fs : FileState) (q : String),
      search_registrations fs q =
        ⟨true, ((get_all_registrations fs).data.filter (specMatches q)).length,
          (get_all_registrations fs).data.filter (specMatches q)⟩)
    ∧ search_registrations doeStore "doe" = ⟨true, 1, [johnRec]⟩ := by
  constructor
  · intro fs q
    rfl
  · decide

/-- C8: the store file created on construction starts with the literal
header row; construction leaves an existing file untouched; and after any
sequence of add, list and search operations the first line of the file is
still that header, with every data row after it. -/
theorem header_line_invariant :
    ensure_csv_exists none = some [header]
    ∧ (∀ rows : List (List String), ensure_csv_exists (some rows) = some rows)
    ∧ (∀ ops : List Op, ∃ dataRows,
        runOps (ensure_csv_exists none) ops = some (header :: dataRows)) := by
  refine ⟨rfl, fun rows => rfl, fun ops => ?_⟩
  exact runOps_header ops []

/-- Statement of C10 as claimed: for some input whose email differs from a
stored record email only by surrounding whitespace, the duplicate check
misses it and add succeeds, writing a duplicate. -/
def claimC10 : Prop :=
  ∃ (t : DateYMD) (now name e dob : String) (fs : FileState) (r : Record),
    r ∈ (get_all_registrations fs).data
    ∧ pyStrip e = r.Email ∧ e ≠ r.Email
    ∧ email_exists fs e = false
    ∧ ∃ msg rcd, (add_registration t now name e dob fs).1 = .success msg rcd

/-- Counterexample to C10 as stated: no such input exists, because an email
that still carries surrounding whitespace fails the email validation, so
add never reaches the write. -/
theorem untrimmed_duplicate_add_never_succeeds_cex : ¬ claimC10 := by
  rintro ⟨t, now, name, e, dob, fs, r, hr, hstrip, hne, hex, msg, rcd, hsucc⟩
  have hsne : pyStrip e ≠ e := fun h => hne (by rw [← h]; exact hstrip)
  have hev : (validate_email e).1 = false := validate_email_false_of_strip_ne hsne
  have hv : ((validate_name name).1 && (validate_email e).1
      && (validate_date_of_birth t dob).1) = false := by
    rw [hev]
    simp
  have hadd := add_validationFailed_of t now name e dob fs hv
  rw [hadd] at hsucc
  simp at hsucc

/-- C10 (amended): the duplicate check lowercases but does not trim while
add stores trimmed emails; for an email that differs from a stored trimmed
email only by surrounding whitespace the lowercased comparison with that
record indeed fails, but add returns ValidationFailed rather than storing a
duplicate, because the email pattern admits no whitespace. -/
theorem untrimmed_email_fails_validation (t : DateYMD) (now name e dob : String)
    (fs : FileState) (r : Record)
    (hr : r ∈ (get_all_registrations fs).data)
    (hstrip : pyStrip e = r.Email) (hne : e ≠ r.Email) :
    pyLower r.Email ≠ pyLower e
    ∧ add_registration t now name e dob fs =
        (.validationFailed "Validation failed"
          [(validate_name name).2, (validate_email e).2,
            (validate_date_of_birth t dob).2], fs) := by
  have hsne : pyStrip e ≠ e := fun h => hne (by rw [← h]; exact hstrip)
  have hCh : stripChars e.toList ≠ e.toList := by
    intro hc
    apply hsne
    unfold pyStrip
    rw [hc]
    exact string_mk_toList e
  have hlen : r.Email.toList.length < e.toList.length := by
    have hre : r.Email.toList = stripChars e.toList := by
      rw [← hstrip]
      rfl
    rw [hre]
    exact length_stripChars_lt hCh
  refine ⟨pyLower_ne_of_shorter hlen, ?_⟩
  apply add_validationFailed_of
  rw [validate_email_false_of_strip_ne hsne]
  simp

/-- Witness for C10 (amended): probing the john store with the same address
padded by a leading space. -/
theorem untrimmed_email_fails_validation_witness :
    johnExampleRec ∈ (get_all_registrations johnStore).data
    ∧ pyStrip " john@example.com" = johnExampleRec.Email
    ∧ (" john@example.com" : String) ≠ johnExampleRec.Email
    ∧ (pyLower johnExampleRec.Email ≠ pyLower " john@example.com"
      ∧ add_registration today0 "2026-10-12 12:00:00" "Jane" " john@example.com" "1990-01-15"
          johnStore =
        (.validationFailed "Validation failed"
          [(validate_name "Jane").2, (validate_email " john@example.com").2,
            (validate_date_of_birth today0 "1990-01-15").2], johnStore)) :=
  ⟨by decide, by decide, by decide,
    untrimmed_email_fails_validation today0 "2026-10-12 12:00:00" "Jane" " john@example.com"
      "1990-01-15" johnStore johnExampleRec (by decide) (by decide) (by decide)⟩
